import Mathlib

/-!
Shallow embedding of the authentication/authorization core of the
`simple-fastapi` repository (src/app), together with theorems settling the
frozen claims about its natural-language specification.

Conventions of the embedding:
* machine time is unix seconds, modelled as `Nat`;
* the database is explicit state: lists of rows, threaded through operations;
* Python exceptions are modelled by explicit outcome types: an
  `HTTPException` becomes a `(status, detail)` pair, an exception that no
  handler catches (and that the framework turns into a 500) becomes an
  `unhandled` outcome carrying the exception class name;
* the JWT codec (`jwt.encode` / `jwt.decode` from PyJWT) is modelled by a
  record of the claims plus a signature-validity flag: `decode` checks the
  signature first and then the `exp` claim (PyJWT raises
  `ExpiredSignatureError` when `exp <= now`, and `InvalidTokenError` when
  the signature or structure is bad);
* bcrypt digests are modelled by a tagged injective encoding of the
  plaintext, which captures the contract `verify p (hash p) = true` and
  `verify p (hash q) = false` for `q ≠ p`.
-/

namespace SimpleFastapi

/-! ## Settings (src/app/core/config.py) -/

/-- Model of `core.config.Settings`: the fields the authentication core reads. -/
structure Settings where
  first_admin_username : String := "admin"
  first_admin_password : String := "admin"
  access_token_expire_minutes : Nat := 60
  deriving Repr, DecidableEq

/-! ## Password hashing (src/app/utils/auth.py, pwdlib bcrypt) -/

/-- Model of `utils.auth.get_password_hash`: bcrypt digest, modelled injectively. -/
def get_password_hash (password : String) : String :=
  "$bcrypt$" ++ password

/-- Model of `utils.auth.verify_password`: checks a plaintext against a digest. -/
def verify_password (plain_password hashed_password : String) : Bool :=
  hashed_password == get_password_hash plain_password

/-! ## Database rows (src/app/models.py) -/

/-- Model of `models.UserScope` row (the per-user columns used by the core). -/
structure UserScopeRow where
  scope : String
  is_active : Bool := true
  deriving Repr, DecidableEq

/-- Model of `models.User` row. -/
structure UserRow where
  id : Nat
  username : String
  email : Option String := none
  fullname : Option String := none
  password : String
  is_active : Bool := true
  role : String := "user"
  allowed_scopes : List UserScopeRow := []
  updated_at : Nat := 0
  deriving Repr, DecidableEq

/-- Model of `models.AccessToken` row. -/
structure AccessTokenRow where
  id : Nat
  token : String
  user_id : Nat
  timestamp : Nat
  expired_at : Nat
  is_revoked : Bool := false
  deriving Repr, DecidableEq

/-- Model of `models.AccessToken.is_expired` hybrid property: true when the stored
expiry is less than now plus a 5-minute grace period. -/
def AccessTokenRow.is_expired (r : AccessTokenRow) (now : Nat) : Bool :=
  r.expired_at < now + 5 * 60

/-- The database: the two tables the claims touch. -/
structure DB where
  users : List UserRow := []
  accesstokens : List AccessTokenRow := []
  deriving Repr, DecidableEq

/-! ## Token codec (src/app/utils/auth.py, PyJWT) -/

/-- A decoded JWT payload as `validate_token` reads it
(`payload.get("jti")`, `payload.get("sub")`, `payload.get("scopes", [])`). -/
structure Payload where
  jti : Option String := none
  sub : Option String := none
  scopes : List String := []
  deriving Repr, DecidableEq

/-- A presented bearer token, as seen by the codec: its payload, whether its
signature verifies under the configured secret/algorithm, and its embedded
`exp` claim (unix seconds), if any. -/
structure RawToken where
  payload : Payload
  sigValid : Bool
  exp : Option Nat := none
  deriving Repr, DecidableEq

inductive JwtError where
  | expiredSignature
  | invalidToken
  deriving Repr, DecidableEq

/-- Model of `utils.auth.decode_access_token` via `jwt.decode`: the signature is
verified first; then the `exp` claim is validated (expired when
`exp <= now`, PyJWT with zero leeway); a payload without `exp` passes. -/
def decode_access_token (now : Nat) (t : RawToken) : Except JwtError Payload :=
  if !t.sigValid then .error .invalidToken
  else
    match t.exp with
    | some e => if e ≤ now then .error .expiredSignature else .ok t.payload
    | none => .ok t.payload

/-! ## Pydantic token schemas (src/app/schemas/token.py) -/

/-- Model of `schemas.token.User` pydantic model. -/
structure SchemaUser where
  id : Int
  username : String
  email : Option String := none
  fullname : Option String := none
  is_active : Bool := true
  is_superadmin : Bool := false
  deriving Repr, DecidableEq

/-- Model of `schemas.token.TokenData` pydantic model: field `user` is required
(declared with no default), field `scopes` defaults to `[]`. -/
structure TokenData where
  user : SchemaUser
  scopes : List String := []
  deriving Repr, DecidableEq

/-- The keyword arguments supplied at the `TokenData(...)` call site in
`main.validate_token` (`id=`, `scopes=`, `username=`); pydantic v2 ignores
keys that are not declared fields, so only `user` and `scopes` can bind. -/
structure TokenDataKwargs where
  id : Option String := none
  kwscopes : Option (List String) := none
  username : Option String := none
  user : Option SchemaUser := none
  deriving Repr, DecidableEq

/-- Pydantic v2 `__init__` semantics for `TokenData`: undeclared keyword
arguments are ignored (default `extra="ignore"`), and an absent required
field `user` raises `ValidationError`. -/
def TokenData.construct (k : TokenDataKwargs) : Except Unit TokenData :=
  match k.user with
  | none => .error ()
  | some u => .ok { user := u, scopes := k.kwscopes.getD [] }

/-! ## Stage 1: validate_token (src/app/main.py lines 121-160) -/

/-- Outcome of a route/dependency body: normal return, a raised
`HTTPException (status, detail)`, or an exception no handler catches
(surfaced by the framework as a 500); the string names the Python
exception class. -/
inductive PyOutcome (α : Type) where
  | ok (a : α)
  | httpExc (status : Nat) (detail : String)
  | unhandled (exnClass : String)
  deriving Repr, DecidableEq

/-- Model of `main.validate_token`, translated line by line:
1. decode the token (`ExpiredSignatureError` → 401 "Token expired",
   `InvalidTokenError` → 401 "Could not validate credentials");
2. build `TokenData(id=payload.get("jti"), scopes=payload.get("scopes", []),
   username=payload.get("sub"))` — this raises `pydantic.ValidationError`
   (not caught by the two `except` clauses, which only catch JWT errors)
   because `TokenData.user` is required and never supplied;
3. (unreachable) look up a non-revoked `AccessToken` row by
   `str(tokendata.id)` — `TokenData` has no field `id`, so the attribute
   read raises `AttributeError`. -/
def validate_token (db : DB) (now : Nat) (token : RawToken) : PyOutcome TokenData :=
  match decode_access_token now token with
  | .error .expiredSignature => .httpExc 401 "Token expired"
  | .error .invalidToken => .httpExc 401 "Could not validate credentials"
  | .ok payload =>
    match TokenData.construct
        { id := payload.jti, kwscopes := some payload.scopes, username := payload.sub } with
    | .error _ => .unhandled ("ValidationError")
    | .ok _ =>
      -- dead code: `str(tokendata.id)` on a constructed TokenData would
      -- raise AttributeError before the query at lines 146-153 runs
      .unhandled ("AttributeError")

/-! ## Stage 2: get_current_user (src/app/main.py lines 163-185) -/

/-- The context object `get_current_user` receives from
`Depends(validate_token)`.  The `TokenData` annotation on the parameter is
not enforced at runtime; the function body reads exactly two attributes of
the object, `tokendata.username` and `tokendata.user_id`, so the dependency
interface is those two fields. -/
structure TokenCtx where
  username : String
  user_id : Nat
  deriving Repr, DecidableEq

/-- The per-scope test of the loop body of `get_current_user`: the first grant
named `scope` (`next((x for x in user.allowed_scopes if x.scope == scope),
None)`) is absent, or is inactive. -/
def scopeCheckFails (allowed : List UserScopeRow) (scope : String) : Bool :=
  match allowed.find? (fun x => x.scope == scope) with
  | none => true
  | some uscope => !uscope.is_active

/-- Model of `main.get_current_user`: load the user by username; 401 "Invalid
credentials" if absent, inactive, or the context user id differs; then,
the `for scope in security_scope.scopes` loop raises 403 "Not enough
permissions" at the first scope whose check fails; otherwise return the
user. -/
def get_current_user (required_scopes : List String) (ctx : TokenCtx) (db : DB) :
    PyOutcome UserRow :=
  match db.users.find? (fun u => u.username == ctx.username) with
  | none => .httpExc 401 "Invalid credentials"
  | some user =>
    if !user.is_active || ctx.user_id != user.id then
      .httpExc 401 "Invalid credentials"
    else
      match required_scopes.find? (scopeCheckFails user.allowed_scopes) with
      | some _ => .httpExc 403 "Not enough permissions"
      | none => .ok user

/-! ## Authentication and token issuance
(src/app/utils/auth.py lines 49-61, src/app/main.py lines 246-296) -/

/-- Model of `utils.auth.authenticate_user`: empty username or password, unknown
username, failed password verification, or inactive user all return
`False` (here `none`); otherwise the user. -/
def authenticate_user (db : DB) (username password : String) : Option UserRow :=
  if username.isEmpty || password.isEmpty then none
  else
    match db.users.find? (fun u => u.username == username) with
    | none => none
    | some user =>
      if !verify_password password user.password then none
      else if !user.is_active then none
      else some user

/-- The signed compact JWT produced by `create_access_token` at the call
site in `get_token`, modelled by its claim set (`jwt.encode` is injective
on claims for the fixed process-wide secret and algorithm). -/
structure EncodedJwt where
  iss : String
  sub : String
  jti : String
  exp : Nat
  deriving Repr, DecidableEq

/-- Model of `schemas.token.AccessToken` response model. -/
structure AccessTokenResponse where
  access_token : EncodedJwt
  token_type : String := "bearer"
  expires_in : Nat
  deriving Repr, DecidableEq

/-- The credential inputs of a `POST /token` request: the optional form
fields and the optional HTTP Basic pair `(username, password)`. -/
structure TokenRequest where
  form_client_id : Option String := none
  form_client_secret : Option String := none
  basic : Option (String × String) := none
  deriving Repr, DecidableEq

/-- Outcome of `get_token`: an `HTTPException` with status, detail and
whether a `WWW-Authenticate: Basic` challenge header was attached, or the
response together with the updated database. -/
inductive GetTokenResult where
  | err (status : Nat) (detail : String) (challengeBasic : Bool)
  | ok (resp : AccessTokenResponse) (db : DB)
  deriving Repr, DecidableEq

/-- Status and detail of an error outcome of `get_token`. -/
def GetTokenResult.errorStatusDetail : GetTokenResult → Option (Nat × String)
  | .err s d _ => some (s, d)
  | .ok _ _ => none

/-- Model of `main.get_token`.  `now` is the issuance instant (unix seconds, the
value of both `datetime.now(timezone.utc)` and the `utcnow()` inside
`create_access_token`, which run within the same second here);
`requester_host` is `request.client.host`; `newTokenId` is the fresh
`str(ULID())`; `nextRowId` the row id the store assigns.  Form credentials
take priority when both are non-empty; otherwise Basic credentials;
otherwise 400 "Not authenticated" with a Basic challenge.  A failed
`authenticate_user` gives 400 "Not authenticated" without the challenge
header.  On success one `AccessToken` row is inserted and the response is
returned. -/
def get_token (s : Settings) (db : DB) (now : Nat) (req : TokenRequest)
    (requester_host newTokenId : String) (nextRowId : Nat) : GetTokenResult :=
  let creds : Option (String × String) :=
    match req.form_client_id, req.form_client_secret with
    | some cid, some csec =>
      if !cid.isEmpty && !csec.isEmpty then some (cid, csec) else req.basic
    | _, _ => req.basic
  match creds with
  | none => .err 400 "Not authenticated" true
  | some (client_id, client_secret) =>
    match authenticate_user db client_id client_secret with
    | none => .err 400 "Not authenticated" false
    | some user =>
      let expires_seconds := s.access_token_expire_minutes * 60
      let jwtTok : EncodedJwt :=
        { iss := requester_host, sub := user.username, jti := newTokenId,
          exp := now + expires_seconds }
      let row : AccessTokenRow :=
        { id := nextRowId, token := newTokenId, user_id := user.id,
          timestamp := now, expired_at := now + expires_seconds }
      .ok { access_token := jwtTok, token_type := "bearer", expires_in := expires_seconds }
        { db with accesstokens := db.accesstokens ++ [row] }

/-! ## Bootstrap (src/app/main.py lines 32-66) -/

/-- Model of `main.api_scopes`: the registry of recognized scope names. -/
def api_scopes : List String :=
  ["me", "admin.assign", "users.read", "users.write", "users.reset", "users.update"]

/-- The user row `create_initial_admin_user` inserts. -/
def initialAdminUser (s : Settings) (newUserId : Nat) : UserRow :=
  { id := newUserId, username := s.first_admin_username, email := none,
    password := get_password_hash s.first_admin_password,
    fullname := some ("Superadmin"), is_active := true, role := "superadmin",
    allowed_scopes :=
      [{ scope := "me", is_active := true },
       { scope := "admin.assign", is_active := true },
       { scope := "users.read", is_active := true },
       { scope := "users.write", is_active := true }] }

/-- Model of `main.create_initial_admin_user`: if no user row has the configured
first-admin username (`query.count() == 0`), insert the initial admin. -/
def create_initial_admin_user (s : Settings) (newUserId : Nat) (db : DB) : DB :=
  if (db.users.filter (fun u => u.username == s.first_admin_username)).length == 0 then
    { db with users := db.users ++ [initialAdminUser s newUserId] }
  else db

/-! ## Admin user update (src/app/routes/admin/users.py lines 160-196,
src/app/schemas/user.py UserUpdate) -/

/-- Model of `schemas.user.UserScope` input model (one entry of `UserUpdate.scopes`). -/
structure ScopeUpdate where
  scope : String
  is_active : Bool
  deriving Repr, DecidableEq

/-- Model of `schemas.user.UserUpdate` request body. -/
structure UserUpdate where
  email : Option String := none
  fullname : Option String := none
  scopes : List ScopeUpdate := []
  remove_scopes : List String := []
  is_active : Bool
  deriving Repr, DecidableEq

/-- The `UserUpdate.validate_scopes` pydantic model validator: every named
scope must be in the registry and no scope may be both added and removed. -/
def UserUpdate.valid (u : UserUpdate) : Prop :=
  (∀ s ∈ u.scopes, s.scope ∈ api_scopes) ∧
  (∀ k ∈ u.remove_scopes, k ∈ api_scopes) ∧
  (∀ s ∈ u.scopes, s.scope ∉ u.remove_scopes)

/-- Model of `scopes_dict` in `update_user`: an insertion-ordered dictionary keyed by
scope name, matching the behavior of a Python dict.  Entries are `(key, row)` pairs. -/
abbrev ScopeDict := List (String × UserScopeRow)

/-- Dictionary lookup, `scopes_dict[k]`. -/
def dictFind (d : ScopeDict) (k : String) : Option UserScopeRow :=
  (d.find? (fun e => e.1 == k)).map (·.2)

/-- One iteration of the `for scope in user.scopes` loop:
`scopes_dict.setdefault(scope.scope, UserScopeDB(...)).is_active = scope.is_active`
— insert the fresh row at the end if the key is absent, then set
`is_active` on the (shared) row. -/
def scopeUpdStep (d : ScopeDict) (s : ScopeUpdate) : ScopeDict :=
  let d' :=
    if (d.find? (fun e => e.1 == s.scope)).isSome then d
    else d ++ [(s.scope, { scope := s.scope, is_active := s.is_active })]
  d'.map (fun e => if e.1 == s.scope then (e.1, { e.2 with is_active := s.is_active }) else e)

/-- One iteration of the `for scope in user.remove_scopes` loop:
`scopes_dict.pop(scope, None)` guarded by `scope != "me"`. -/
def scopeRemoveStep (d : ScopeDict) (k : String) : ScopeDict :=
  if k == "me" then d else d.filter (fun e => e.1 != k)

/-- The whole scope-compilation block of `update_user` (lines 181-191):
build the dict from `allowed_scopes`, apply adds/updates, apply removals,
take the values. -/
def compileScopes (cur : List UserScopeRow) (ups : List ScopeUpdate)
    (removes : List String) : List UserScopeRow :=
  let d0 : ScopeDict := cur.map (fun s => (s.scope, s))
  let d1 := ups.foldl scopeUpdStep d0
  let d2 := removes.foldl scopeRemoveStep d1
  d2.map (·.2)

/-- Model of `routes.admin.users.update_user` (the PUT handler body): fetch the user
by primary key (404 if absent), overwrite email/fullname/is_active from the
request, and, unless the role of the target is "superadmin", recompile the scope
set. -/
def update_user (db : DB) (user_id : Nat) (upd : UserUpdate) :
    Except (Nat × String) (UserRow × DB) :=
  match db.users.find? (fun u => u.id == user_id) with
  | none => .error (404, "User not found")
  | some u =>
    let u1 := { u with email := upd.email, fullname := upd.fullname,
                       is_active := upd.is_active }
    let u2 :=
      if u1.role != "superadmin" then
        { u1 with allowed_scopes := compileScopes u1.allowed_scopes upd.scopes upd.remove_scopes }
      else u1
    .ok (u2, { db with users := db.users.map (fun w => if w.id == user_id then u2 else w) })

/-! ## Profile update (src/app/routes/user.py lines 61-94) -/

/-- Model of `schemas.user.UserBase`, the `PATCH /profile` body. -/
structure ProfileUpdate where
  email : Option String := none
  fullname : Option String := none
  deriving Repr, DecidableEq

/-- Python truthiness of an optional string: `None` and `""` are falsy. -/
def truthyStr : Option String → Bool
  | none => false
  | some s => !s.isEmpty

/-- Model of `routes.user.update_users_me`: if no field of `user.model_dump()` is
truthy, raise 400 "No fields to update" before any database access;
otherwise fetch the row and overwrite each field only when the new value is
truthy (`db_user.fullname = user.fullname or db_user.fullname`).  The
returned `DB` is the post-call database state. -/
def update_users_me (db : DB) (current_user_id : Nat) (upd : ProfileUpdate) :
    PyOutcome UserRow × DB :=
  if !(truthyStr upd.email || truthyStr upd.fullname) then
    (.httpExc 400 "No fields to update", db)
  else
    match db.users.find? (fun u => u.id == current_user_id) with
    | none =>
      -- attribute assignment on None: unreachable for an authenticated user
      (.unhandled ("AttributeError"), db)
    | some u =>
      let u' := { u with
        fullname := if truthyStr upd.fullname then upd.fullname else u.fullname,
        email := if truthyStr upd.email then upd.email else u.email }
      (.ok u', { db with users := db.users.map (fun w => if w.id == current_user_id then u' else w) })

/-! ## Password change (src/app/routes/user.py lines 109-147) -/

/-- Model of `routes.user.change_password`: verify the old password (400 "Cannot
change password" otherwise, database untouched); then set the stored
password hash of the user and, in one bulk update, set `is_revoked := true` on exactly
the rows matching `user_id == current_user.id`, `is_revoked == False`,
`is_expired == False` (the hybrid property, evaluated at `now`). -/
def change_password (db : DB) (current_user : UserRow)
    (old_password new_password : String) (now : Nat) :
    PyOutcome Unit × DB :=
  if !verify_password old_password current_user.password then
    (.httpExc 400 "Cannot change password", db)
  else
    let users' := db.users.map (fun u =>
      if u.id == current_user.id then { u with password := get_password_hash new_password } else u)
    let toks' := db.accesstokens.map (fun r =>
      if r.user_id == current_user.id && r.is_revoked == false && r.is_expired now == false
      then { r with is_revoked := true } else r)
    (.ok (), { users := users', accesstokens := toks' })

/-! ## Concrete states, requests and tokens used by the claims -/

/-- A well-formed token for claim C1: valid signature, future expiry,
`jti` matching a stored, non-revoked record. -/
def c1token : RawToken :=
  { payload := { jti := some ("01JC1TOKENID"), sub := some ("admin"), scopes := ["me"] },
    sigValid := true, exp := some 2000 }

/-- Database for claim C1: the matching record exists and is not revoked. -/
def c1db : DB :=
  { users := [{ id := 7, username := "admin", password := get_password_hash ("Admin123!"),
                is_active := true, role := "superadmin",
                allowed_scopes := [{ scope := "me", is_active := true }] }],
    accesstokens := [{ id := 1, token := "01JC1TOKENID", user_id := 7,
                       timestamp := 900, expired_at := 4500, is_revoked := false }] }

/-- A decodable token for claim C4 whose stored record is revoked. -/
def c4token : RawToken :=
  { payload := { jti := some ("01JC4TOKENID"), sub := some ("bob"), scopes := [] },
    sigValid := true, exp := some 5000 }

/-- Database for claim C4: the matching record has `is_revoked = true`. -/
def c4db : DB :=
  { users := [],
    accesstokens := [{ id := 2, token := "01JC4TOKENID", user_id := 3,
                       timestamp := 0, expired_at := 5000, is_revoked := true }] }

/-- Database for the C6 witness: one active user with a known password
digest and one inactive user. -/
def c6db : DB :=
  { users := [{ id := 1, username := "alice", password := get_password_hash ("Alice123!"),
                is_active := true },
              { id := 2, username := "carl", password := get_password_hash ("Carl1234!"),
                is_active := false }] }

/-- A form-credential request, for the witnesses. -/
def formReq (cid csec : String) : TokenRequest :=
  { form_client_id := some cid, form_client_secret := some csec, basic := none }

/-- Database for the C2 witness. -/
def c2db : DB :=
  { users := [{ id := 7, username := "admin", password := get_password_hash ("Admin123!"),
                is_active := true, role := "superadmin" }] }

/-- The response of the concrete C2 issuance. -/
def c2resp : AccessTokenResponse :=
  { access_token := { iss := "127.0.0.1", sub := "admin", jti := "01JC2TOKENID", exp := 4600 },
    token_type := "bearer", expires_in := 3600 }

/-- The database after the concrete C2 issuance. -/
def c2dbAfter : DB :=
  { users := c2db.users,
    accesstokens := [{ id := 9, token := "01JC2TOKENID", user_id := 7,
                       timestamp := 1000, expired_at := 4600 }] }

/-- User for the C5 witness: holds an active "me" grant and an inactive
"users.read" grant. -/
def c5user : UserRow :=
  { id := 4, username := "dora", password := get_password_hash ("Dora1234!"),
    is_active := true,
    allowed_scopes := [{ scope := "me", is_active := true },
                       { scope := "users.read", is_active := false }] }

/-- Database for the C5 witness. -/
def c5db : DB := { users := [c5user] }

/-- The empty initial state, for the C8 bootstrap runs. -/
def c8dbEmpty : DB := {}

/-- A state that already contains a superadmin whose username differs from
the configured first-admin username. -/
def c8dbOther : DB :=
  { users := [{ id := 1, username := "boss", password := get_password_hash ("Boss1234!"),
                is_active := true, role := "superadmin",
                allowed_scopes := [{ scope := "me", is_active := true }] }] }

/-- The user changing their password in the C10 scenario. -/
def c10user : UserRow :=
  { id := 2, username := "bob", password := get_password_hash ("OldPass1!"),
    is_active := true,
    allowed_scopes := [{ scope := "me", is_active := true }] }

/-- An access-token record inside the 5-minute grace window at time 1000:
its stored expiry 1200 is in the future, but `is_expired` is already true
(1200 < 1000 + 300). -/
def c10graceRow : AccessTokenRow :=
  { id := 1, token := "01JGRACETOK", user_id := 2, timestamp := 0, expired_at := 1200 }

/-- A still-fresh access-token record (`is_expired` false at time 1000). -/
def c10freshRow : AccessTokenRow :=
  { id := 2, token := "01JFRESHTOK", user_id := 2, timestamp := 900, expired_at := 4500 }

/-- Database for the C10 scenario. -/
def c10db : DB := { users := [c10user], accesstokens := [c10graceRow, c10freshRow] }

/-- The database after the C10 password change: the grace-window record is
untouched, the fresh record is revoked, the password hash is replaced. -/
def c10dbAfter : DB :=
  { users := [{ c10user with password := get_password_hash ("NewPass1!") }],
    accesstokens := [c10graceRow, { c10freshRow with is_revoked := true }] }

/-- The bearer token whose record is the grace-window row: signature
verifies and its embedded expiry claim 1200 is still in the future at
time 1000. -/
def c10token : RawToken :=
  { payload := { jti := some ("01JGRACETOK"), sub := some ("bob"), scopes := ["me"] },
    sigValid := true, exp := some 1200 }

/-- Target user for the C7 counterexample: a plain (non-superadmin) user
holding only the "me" scope. -/
def c7user : UserRow :=
  { id := 3, username := "carol", password := get_password_hash ("Carol123!"),
    is_active := true, role := "user",
    allowed_scopes := [{ scope := "me", is_active := true }] }

/-- Database for the C7 counterexample. -/
def c7db : DB := { users := [c7user] }

/-- An update request naming the admin-tier scope "admin.assign" — accepted
by the `UserUpdate` validator, since "admin.assign" is in the registry. -/
def c7upd : UserUpdate :=
  { scopes := [{ scope := "admin.assign", is_active := true }],
    remove_scopes := [], is_active := true }

/-- The user that the C7 update actually produces: the admin-tier scope was added. -/
def c7userAfter : UserRow :=
  { c7user with allowed_scopes := [{ scope := "me", is_active := true },
                                   { scope := "admin.assign", is_active := true }] }

/-- The dictionary invariant of `scopes_dict`: every entry key equals the
scope name of its row. -/
def DictInv (d : ScopeDict) : Prop := ∀ e ∈ d, e.2.scope = e.1

/-- The user value `update_user` writes back, factored out of the handler
for the proofs below. -/
def updatedUser (u : UserRow) (upd : UserUpdate) : UserRow :=
  let u1 : UserRow :=
    { u with email := upd.email, fullname := upd.fullname, is_active := upd.is_active }
  if u1.role != "superadmin" then
    { u1 with allowed_scopes := compileScopes u1.allowed_scopes upd.scopes upd.remove_scopes }
  else u1

/-- Target user for the C7 amended witness: holds "me" and an active
"users.read"; the request adds "users.write", deactivates nothing, and
removes "users.read" and (ineffectively) "me". -/
def c7user2 : UserRow :=
  { id := 5, username := "erin", password := get_password_hash ("Erin1234!"),
    is_active := true, role := "user",
    allowed_scopes := [{ scope := "me", is_active := true },
                       { scope := "users.read", is_active := true }] }

/-- Database for the C7 amended witness. -/
def c7db2 : DB := { users := [c7user2] }

/-- Update request for the C7 amended witness. -/
def c7upd2 : UserUpdate :=
  { scopes := [{ scope := "users.write", is_active := true }],
    remove_scopes := ["users.read", "me"], is_active := true }

/-! ## Theorems settling the claims -/

/-- C1 (code bug): for a bearer token with a verifying signature, unexpired
claim, and a matching non-revoked Access Token Record, `validate_token`
does not return a context carrying token-id, username and owning-user-id:
the `TokenData(...)` construction raises an uncaught pydantic
`ValidationError` (its required `user` field is never supplied — the
schema in `schemas/token.py` does not match the call site in `main.py`),
so the request fails with a 500 instead of succeeding. -/
theorem validate_token_crashes_on_valid_token :
    validate_token c1db 1000 c1token = .unhandled ("ValidationError") := by
  decide

/-- C3: a token whose signature does not verify is rejected with 401
"Could not validate credentials", and a token with verifying signature
whose embedded expiry has passed is rejected with 401 "Token expired";
in either case the outcome is identical on any two database states, so no
Access Token Record lookup influences it. -/
theorem validate_token_rejects_undecodable (db db' : DB) (now : Nat) (t : RawToken)
    (hbad : t.sigValid = false ∨ ∃ e, t.exp = some e ∧ e ≤ now) :
    validate_token db now t =
      .httpExc 401 (if t.sigValid then ("Token expired") else ("Could not validate credentials")) ∧
    validate_token db now t = validate_token db' now t := by
  have hmain : ∀ d : DB, validate_token d now t =
      .httpExc 401 (if t.sigValid then ("Token expired") else ("Could not validate credentials")) := by
    intro d
    rcases hbad with h | ⟨e, he, hle⟩
    · simp [validate_token, decode_access_token, h]
    · cases hsv : t.sigValid with
      | false => simp [validate_token, decode_access_token, hsv]
      | true => simp [validate_token, decode_access_token, hsv, he, hle]
  exact ⟨hmain db, (hmain db).trans (hmain db').symm⟩

/-- Witness for C3: concrete runs of both rejection branches, on two
different databases (one holding a matching record, one empty). -/
theorem validate_token_rejects_undecodable_witness :
    (validate_token c1db 1000 { payload := {}, sigValid := false, exp := some 2000 } =
        .httpExc 401 "Could not validate credentials" ∧
      validate_token c1db 1000 { payload := {}, sigValid := false, exp := some 2000 } =
        validate_token { } 1000 { payload := {}, sigValid := false, exp := some 2000 }) ∧
    (validate_token c1db 1000 { payload := { jti := some ("01JC1TOKENID") }, sigValid := true, exp := some 900 } =
        .httpExc 401 "Token expired" ∧
      validate_token c1db 1000 { payload := { jti := some ("01JC1TOKENID") }, sigValid := true, exp := some 900 } =
        validate_token { } 1000 { payload := { jti := some ("01JC1TOKENID") }, sigValid := true, exp := some 900 }) := by
  constructor
  · simpa using validate_token_rejects_undecodable c1db { } 1000
      { payload := {}, sigValid := false, exp := some 2000 } (Or.inl rfl)
  · simpa using validate_token_rejects_undecodable c1db { } 1000
      { payload := { jti := some ("01JC1TOKENID") }, sigValid := true, exp := some 900 }
      (Or.inr ⟨900, rfl, by decide⟩)

/-- C4 (code bug): for a token that decodes successfully but whose stored
record is revoked, `validate_token` does not reject with 401: it raises the
uncaught `ValidationError` from the `TokenData(...)` construction before
the revocation lookup is ever reached. -/
theorem validate_token_crashes_instead_of_revocation_check :
    validate_token c4db 1000 c4token = .unhandled ("ValidationError") ∧
    validate_token c4db 1000 c4token ≠ .httpExc 401 "Could not validate credentials" := by
  decide

/-- C9: a `PATCH /profile` whose fields are all empty or null is rejected
with 400 "No fields to update" and the database state is returned exactly
as it was: no write happens, every stored field (including `updated_at`)
keeps its prior value. -/
theorem update_users_me_rejects_all_empty (db : DB) (uid : Nat) (upd : ProfileUpdate)
    (he : truthyStr upd.email = false) (hf : truthyStr upd.fullname = false) :
    update_users_me db uid upd = (.httpExc 400 "No fields to update", db) := by
  simp [update_users_me, he, hf]

/-- Witness for C9: a concrete run with `email = None` and `fullname = ""`
on a one-user database. -/
theorem update_users_me_rejects_all_empty_witness :
    update_users_me c1db 7 { email := none, fullname := some ("") } =
      (.httpExc 400 "No fields to update", c1db) :=
  update_users_me_rejects_all_empty c1db 7 { email := none, fullname := some ("") }
    (by decide) (by decide)

/-- C6: every failed token issuance — unknown client_id, known client_id
with a secret that fails verification, an inactive user, or an empty
client_id or client_secret — produces the same error status and message,
400 "Not authenticated"; a caller cannot tell which check failed. -/
theorem get_token_uniform_failure (s : Settings) (db : DB) (now : Nat)
    (cid csec host tid : String) (nrid : Nat)
    (h : db.users.find? (fun u => u.username == cid) = none ∨
         (∃ u, db.users.find? (fun w => w.username == cid) = some u ∧
            verify_password csec u.password = false) ∨
         (∃ u, db.users.find? (fun w => w.username == cid) = some u ∧ u.is_active = false) ∨
         cid.isEmpty = true ∨ csec.isEmpty = true) :
    (get_token s db now
        { form_client_id := some cid, form_client_secret := some csec, basic := none }
        host tid nrid).errorStatusDetail = some (400, "Not authenticated") := by
  by_cases hc : cid.isEmpty = true
  · simp [get_token, hc, GetTokenResult.errorStatusDetail]
  · by_cases hcs : csec.isEmpty = true
    · simp [get_token, hc, hcs, GetTokenResult.errorStatusDetail]
    · rcases h with h1 | ⟨u, hu, hv⟩ | ⟨u, hu, ha⟩ | h4 | h4
      · simp [get_token, hc, hcs, authenticate_user, h1, GetTokenResult.errorStatusDetail]
      · simp [get_token, hc, hcs, authenticate_user, hu, hv, GetTokenResult.errorStatusDetail]
      · by_cases hv : verify_password csec u.password = true
        · simp [get_token, hc, hcs, authenticate_user, hu, hv, ha,
            GetTokenResult.errorStatusDetail]
        · simp [get_token, hc, hcs, authenticate_user, hu, hv,
            GetTokenResult.errorStatusDetail]
      · exact absurd h4 hc
      · exact absurd h4 hcs

/-- Witness for C6: the four concrete failure scenarios all evaluate to the
same status and message. -/
theorem get_token_uniform_failure_witness :
    (get_token {} c6db 1000 (formReq ("nobody") "Pw123456!") "h" "t" 1).errorStatusDetail
        = some (400, "Not authenticated") ∧
    (get_token {} c6db 1000 (formReq ("alice") "wrongpass") "h" "t" 1).errorStatusDetail
        = some (400, "Not authenticated") ∧
    (get_token {} c6db 1000 (formReq ("carl") "Carl1234!") "h" "t" 1).errorStatusDetail
        = some (400, "Not authenticated") ∧
    (get_token {} c6db 1000 (formReq ("") "Pw123456!") "h" "t" 1).errorStatusDetail
        = some (400, "Not authenticated") := by
  refine ⟨?_, ?_, ?_, ?_⟩
  · exact get_token_uniform_failure {} c6db 1000 "nobody" "Pw123456!" "h" "t" 1
      (Or.inl (by decide))
  · exact get_token_uniform_failure {} c6db 1000 "alice" "wrongpass" "h" "t" 1
      (Or.inr (Or.inl ⟨(c6db.users.get ⟨0, by decide⟩), by decide, by decide⟩))
  · exact get_token_uniform_failure {} c6db 1000 "carl" "Carl1234!" "h" "t" 1
      (Or.inr (Or.inr (Or.inl ⟨(c6db.users.get ⟨1, by decide⟩), by decide, by decide⟩)))
  · exact get_token_uniform_failure {} c6db 1000 "" "Pw123456!" "h" "t" 1
      (Or.inr (Or.inr (Or.inr (Or.inl (by decide)))))

/-- C2: every successful `get_token` call inserts exactly one new Access
Token Record; its stored token identifier equals the `jti` claim of the
returned token; its stored expiry equals the stored issuance timestamp
plus the configured TTL; and the response carries the encoded token,
token_type "bearer", and the TTL in seconds. -/
theorem get_token_success_postcondition (s : Settings) (db : DB) (now : Nat)
    (req : TokenRequest) (host tid : String) (nrid : Nat)
    (resp : AccessTokenResponse) (db' : DB)
    (h : get_token s db now req host tid nrid = .ok resp db') :
    ∃ row : AccessTokenRow,
      db'.accesstokens = db.accesstokens ++ [row] ∧
      db'.users = db.users ∧
      row.token = resp.access_token.jti ∧
      row.expired_at = row.timestamp + s.access_token_expire_minutes * 60 ∧
      row.timestamp = now ∧
      row.is_revoked = false ∧
      resp.token_type = "bearer" ∧
      resp.expires_in = s.access_token_expire_minutes * 60 := by
  unfold get_token at h
  simp only [] at h
  split at h
  · simp at h
  · split at h
    · simp at h
    · rw [GetTokenResult.ok.injEq] at h
      obtain ⟨hresp, hdb⟩ := h
      subst hresp
      subst hdb
      exact ⟨_, rfl, rfl, rfl, rfl, rfl, rfl, rfl, rfl⟩

/-- Witness for C2: a concrete successful issuance with the default
settings (TTL 60 minutes). -/
theorem get_token_success_postcondition_witness :
    ∃ row : AccessTokenRow,
      c2dbAfter.accesstokens = c2db.accesstokens ++ [row] ∧
      c2dbAfter.users = c2db.users ∧
      row.token = c2resp.access_token.jti ∧
      row.expired_at = row.timestamp + ({} : Settings).access_token_expire_minutes * 60 ∧
      row.timestamp = 1000 ∧
      row.is_revoked = false ∧
      c2resp.token_type = "bearer" ∧
      c2resp.expires_in = ({} : Settings).access_token_expire_minutes * 60 :=
  get_token_success_postcondition {} c2db 1000 (formReq ("admin") "Admin123!")
    "127.0.0.1" "01JC2TOKENID" 9 c2resp c2dbAfter (by decide)

/-- Under the invariant that the grants of a user carry pairwise-distinct scope
names (maintained by every user-creation and user-update path of the app),
the per-scope check fails exactly when no active grant with that exact
name exists. -/
lemma scopeCheckFails_eq_false_iff (l : List UserScopeRow) (s : String)
    (hnd : (l.map (fun g => g.scope)).Nodup) :
    scopeCheckFails l s = false ↔ ∃ g ∈ l, g.scope = s ∧ g.is_active = true := by
  induction l with
  | nil => simp [scopeCheckFails]
  | cons a t ih =>
    rw [List.map_cons, List.nodup_cons] at hnd
    obtain ⟨ha, ht⟩ := hnd
    by_cases hs : a.scope = s
    · subst hs
      rw [scopeCheckFails, List.find?_cons_of_pos _ (by simp)]
      constructor
      · intro h
        exact ⟨a, List.mem_cons_self a t, rfl, by simpa using h⟩
      · rintro ⟨g, hg, hgs, hact⟩
        rcases List.mem_cons.mp hg with rfl | hgt
        · simpa using hact
        · exact absurd (hgs ▸ List.mem_map_of_mem (fun g => g.scope) hgt) ha
    · rw [scopeCheckFails, List.find?_cons_of_neg _ (by simpa using hs)]
      rw [show (match t.find? (fun x => x.scope == s) with
            | none => true
            | some uscope => !uscope.is_active) = scopeCheckFails t s from rfl]
      rw [ih ht]
      constructor
      · rintro ⟨g, hg, hgs, hact⟩
        exact ⟨g, List.mem_cons_of_mem a hg, hgs, hact⟩
      · rintro ⟨g, hg, hgs, hact⟩
        rcases List.mem_cons.mp hg with rfl | hgt
        · exact absurd hgs hs
        · exact ⟨g, hgt, hgs, hact⟩

/-- C5: given an authenticated user (the username lookup succeeds, the user
is active, and the context owning-user-id matches), `get_current_user`
returns the user iff every required scope has an active grant with that
exact name on the user, and rejects with 403 "Not enough permissions"
whenever some required scope has no active grant (absent and inactive
grants both count). -/
theorem get_current_user_scope_enforcement
    (required : List String) (ctx : TokenCtx) (db : DB) (user : UserRow)
    (hfind : db.users.find? (fun u => u.username == ctx.username) = some user)
    (hactive : user.is_active = true)
    (hid : ctx.user_id = user.id)
    (hnd : (user.allowed_scopes.map (fun g => g.scope)).Nodup) :
    (get_current_user required ctx db = .ok user ↔
      ∀ s ∈ required, ∃ g ∈ user.allowed_scopes, g.scope = s ∧ g.is_active = true) ∧
    ((∃ s ∈ required, ¬ ∃ g ∈ user.allowed_scopes, g.scope = s ∧ g.is_active = true) →
      get_current_user required ctx db = .httpExc 403 "Not enough permissions") := by
  have hred : get_current_user required ctx db =
      match required.find? (scopeCheckFails user.allowed_scopes) with
      | some _ => .httpExc 403 "Not enough permissions"
      | none => .ok user := by
    simp [get_current_user, hfind, hactive, hid]
  rw [hred]
  cases hP : required.find? (scopeCheckFails user.allowed_scopes) with
  | none =>
    have hall : ∀ s ∈ required, ∃ g ∈ user.allowed_scopes, g.scope = s ∧ g.is_active = true := by
      intro s hs
      have h1 := List.find?_eq_none.mp hP s hs
      have h2 : scopeCheckFails user.allowed_scopes s = false := by simpa using h1
      exact (scopeCheckFails_eq_false_iff _ _ hnd).mp h2
    exact ⟨⟨fun _ => hall, fun _ => rfl⟩, fun ⟨s, hs, hno⟩ => absurd (hall s hs) hno⟩
  | some x =>
    have hx : scopeCheckFails user.allowed_scopes x = true := List.find?_some hP
    have hxm : x ∈ required := List.mem_of_find?_eq_some hP
    refine ⟨⟨fun h => absurd h (by simp), fun hall => ?_⟩, fun _ => rfl⟩
    have h2 := (scopeCheckFails_eq_false_iff user.allowed_scopes x hnd).mpr (hall x hxm)
    rw [hx] at h2
    cases h2

/-- Witness for C5: the theorem applied to a concrete authenticated user
and the required-scope list `["users.read"]` (whose only grant is
inactive). -/
theorem get_current_user_scope_enforcement_witness :
    (get_current_user ["users.read"] { username := "dora", user_id := 4 } c5db = .ok c5user ↔
      ∀ s ∈ ["users.read"], ∃ g ∈ c5user.allowed_scopes, g.scope = s ∧ g.is_active = true) ∧
    ((∃ s ∈ ["users.read"], ¬ ∃ g ∈ c5user.allowed_scopes, g.scope = s ∧ g.is_active = true) →
      get_current_user ["users.read"] { username := "dora", user_id := 4 } c5db =
        .httpExc 403 "Not enough permissions") :=
  get_current_user_scope_enforcement ["users.read"] { username := "dora", user_id := 4 }
    c5db c5user (by decide) (by decide) (by decide) (by decide)

/-- C8 counterexample: the bootstrap claim fails on the code in two ways.
On an empty state the scope names of the created superadmin are only
`["me", "admin.assign", "users.read", "users.write"]`, not the full
built-in registry (`users.reset` and `users.update` are missing); and on a
state already holding a superadmin under a different username, a second
superadmin is created, because the code keys its existence check on the
configured username, not on the role. -/
theorem create_initial_admin_user_claim_false :
    ((create_initial_admin_user {} 1 c8dbEmpty).users.map
        (fun u => u.allowed_scopes.map (fun g => g.scope)) ≠ [api_scopes]) ∧
    ((create_initial_admin_user {} 2 c8dbOther).users.filter
        (fun u => u.role == "superadmin")).length = 2 := by
  decide

/-- C8 amended: the bootstrap creates a user with role "superadmin" holding
the active scopes me, admin.assign, users.read and users.write (not the
full registry) exactly when no user with the configured first-admin
username exists (not: no superadmin exists), and it is idempotent: a
second run creates nothing and changes nothing. -/
theorem create_initial_admin_user_amended (s : Settings) (n n' : Nat) (db : DB) :
    ((∀ u ∈ db.users, u.username ≠ s.first_admin_username) →
      ∃ w, (create_initial_admin_user s n db).users = db.users ++ [w] ∧
        w.role = "superadmin" ∧
        w.username = s.first_admin_username ∧
        w.allowed_scopes.map (fun g => (g.scope, g.is_active)) =
          [("me", true), ("admin.assign", true), ("users.read", true), ("users.write", true)]) ∧
    ((∃ u ∈ db.users, u.username = s.first_admin_username) →
      create_initial_admin_user s n db = db) ∧
    create_initial_admin_user s n' (create_initial_admin_user s n db) =
      create_initial_admin_user s n db := by
  have habsent : ∀ m : Nat, (∀ u ∈ db.users, u.username ≠ s.first_admin_username) →
      create_initial_admin_user s m db = { db with users := db.users ++ [initialAdminUser s m] } := by
    intro m hm
    have hfil : db.users.filter (fun u => u.username == s.first_admin_username) = [] := by
      rw [List.filter_eq_nil_iff]
      intro u hu
      simpa using hm u hu
    simp [create_initial_admin_user, hfil]
  have hpresent : ∀ (m : Nat) (d : DB), (∃ u ∈ d.users, u.username = s.first_admin_username) →
      create_initial_admin_user s m d = d := by
    rintro m d ⟨u, hu, he⟩
    have hmem : u ∈ d.users.filter (fun w => w.username == s.first_admin_username) :=
      List.mem_filter.mpr ⟨hu, by simpa using he⟩
    have hlen : (d.users.filter (fun w => w.username == s.first_admin_username)).length ≠ 0 := by
      intro h0
      rw [List.length_eq_zero] at h0
      rw [h0] at hmem
      cases hmem
    simp [create_initial_admin_user, hlen]
  refine ⟨?_, hpresent n db, ?_⟩
  · intro hm
    exact ⟨initialAdminUser s n, by rw [habsent n hm], rfl, rfl, rfl⟩
  · by_cases hm : ∀ u ∈ db.users, u.username ≠ s.first_admin_username
    · rw [habsent n hm]
      exact hpresent n' _ ⟨initialAdminUser s n, by simp, rfl⟩
    · push_neg at hm
      obtain ⟨u, hu, he⟩ := hm
      rw [hpresent n db ⟨u, hu, he⟩]
      exact hpresent n' db ⟨u, hu, he⟩

/-- Witness for C8 amended: a concrete run on the empty state, and the
idempotence of running it twice there. -/
theorem create_initial_admin_user_amended_witness :
    (∃ w, (create_initial_admin_user {} 1 c8dbEmpty).users = c8dbEmpty.users ++ [w] ∧
      w.role = "superadmin" ∧
      w.username = ({} : Settings).first_admin_username ∧
      w.allowed_scopes.map (fun g => (g.scope, g.is_active)) =
        [("me", true), ("admin.assign", true), ("users.read", true), ("users.write", true)]) ∧
    create_initial_admin_user {} 2 (create_initial_admin_user {} 1 c8dbEmpty) =
      create_initial_admin_user {} 1 c8dbEmpty :=
  ⟨(create_initial_admin_user_amended {} 1 2 c8dbEmpty).1 (by simp [c8dbEmpty]),
   (create_initial_admin_user_amended {} 1 2 c8dbEmpty).2.2⟩

/-- C10 (code bug): a successful password change leaves the grace-window
record completely unchanged — in particular `is_revoked` stays false —
while revoking the non-expired record, exactly as the frame part of the claim
says; but the final clause of the claim fails: the corresponding bearer token
does not continue to pass validation, because `validate_token` raises the
uncaught pydantic `ValidationError` on every decodable token (the
`TokenData` schema mismatch), instead of returning a context. -/
theorem change_password_spares_grace_window_but_validation_crashes :
    change_password c10db c10user ("OldPass1!") "NewPass1!" 1000 = (.ok (), c10dbAfter) ∧
    c10graceRow.is_revoked = false ∧
    c10graceRow.is_expired 1000 = true ∧
    1000 < c10graceRow.expired_at ∧
    validate_token c10dbAfter 1000 c10token = .unhandled ("ValidationError") := by
  decide

/-- C7 counterexample: an admin user-update request naming "admin.assign"
in its scopes list makes the scope set of the target gain that admin-tier scope
— the update path has no admin-tier filter, contrary to the claim. -/
theorem update_user_adds_admin_tier_scope :
    update_user c7db 3 c7upd = .ok (c7userAfter, { users := [c7userAfter] }) ∧
    "admin.assign" ∈ c7userAfter.allowed_scopes.map (fun g => g.scope) ∧
    "admin.assign" ∉ c7user.allowed_scopes.map (fun g => g.scope) ∧
    c7upd.valid := by
  refine ⟨rfl, by decide, by decide, by decide, by decide, by decide⟩

/-- The map function inside `scopeUpdStep` preserves keys. -/
lemma scopeUpdStep_key_eq (s : ScopeUpdate) (e : String × UserScopeRow) :
    ((if e.1 == s.scope then (e.1, { e.2 with is_active := s.is_active }) else e) :
      String × UserScopeRow).1 = e.1 := by
  split <;> rfl

/-- Lookup in `scopeUpdStep` decomposed through `find?_map`. -/
lemma find?_scopeUpdStep (d : ScopeDict) (s : ScopeUpdate) (k : String) :
    (scopeUpdStep d s).find? (fun e => e.1 == k) =
      ((if (d.find? (fun e => e.1 == s.scope)).isSome then d
        else d ++ [(s.scope, { scope := s.scope, is_active := s.is_active })]).find?
          (fun e => e.1 == k)).map
        (fun e => if e.1 == s.scope then (e.1, { e.2 with is_active := s.is_active }) else e) := by
  unfold scopeUpdStep
  rw [List.find?_map]
  have hfun : ((fun (e : String × UserScopeRow) => e.1 == k) ∘
      (fun e => if e.1 == s.scope then (e.1, { e.2 with is_active := s.is_active }) else e)) =
      fun (e : String × UserScopeRow) => e.1 == k := by
    funext e
    simp only [Function.comp_apply, scopeUpdStep_key_eq]
  rw [hfun]

/-- After `scopeUpdStep d s`, the entry at key `s.scope` is exactly the row
`⟨s.scope, s.is_active⟩` (given the dictionary invariant). -/
lemma find?_scopeUpdStep_self (d : ScopeDict) (s : ScopeUpdate) (hinv : DictInv d) :
    (scopeUpdStep d s).find? (fun e => e.1 == s.scope) =
      some (s.scope, { scope := s.scope, is_active := s.is_active }) := by
  rw [find?_scopeUpdStep]
  by_cases hc : (d.find? (fun e => e.1 == s.scope)).isSome
  · rw [if_pos hc]
    obtain ⟨e0, he0⟩ := Option.isSome_iff_exists.mp hc
    rw [he0]
    have hkey : e0.1 = s.scope := by simpa using List.find?_some he0
    have hscope : e0.2.scope = e0.1 := hinv e0 (List.mem_of_find?_eq_some he0)
    obtain ⟨k, v⟩ := e0
    obtain ⟨sc, act⟩ := v
    simp only at hkey hscope
    subst hscope
    subst hkey
    simp
  · rw [if_neg hc]
    have hnone : d.find? (fun e => e.1 == s.scope) = none :=
      Option.not_isSome_iff_eq_none.mp hc
    rw [List.find?_append, hnone]
    simp

/-- Model of `scopeUpdStep` leaves lookups at other keys unchanged. -/
lemma find?_scopeUpdStep_other (d : ScopeDict) (s : ScopeUpdate) (k : String)
    (hk : k ≠ s.scope) :
    (scopeUpdStep d s).find? (fun e => e.1 == k) = d.find? (fun e => e.1 == k) := by
  rw [find?_scopeUpdStep]
  have hmap : (d.find? (fun e => e.1 == k)).map
      (fun e => if e.1 == s.scope then (e.1, { e.2 with is_active := s.is_active }) else e) =
      d.find? (fun e => e.1 == k) := by
    cases ho : d.find? (fun e => e.1 == k) with
    | none => rfl
    | some e =>
      have he1 : e.1 = k := by simpa using List.find?_some ho
      simp [he1, hk]
  by_cases hc : (d.find? (fun e => e.1 == s.scope)).isSome
  · rw [if_pos hc, hmap]
  · rw [if_neg hc, List.find?_append]
    have hsingle : ([((s.scope : String),
        ({ scope := s.scope, is_active := s.is_active } : UserScopeRow))].find?
          (fun e => e.1 == k)) = none := by
      simp [Ne.symm hk]
    rw [hsingle, Option.or_none, hmap]

/-- Model of `scopeUpdStep` preserves the dictionary invariant. -/
lemma dictInv_scopeUpdStep (d : ScopeDict) (s : ScopeUpdate) (h : DictInv d) :
    DictInv (scopeUpdStep d s) := by
  intro e he
  unfold scopeUpdStep at he
  obtain ⟨a, ha, hae⟩ := List.mem_map.mp he
  have ha2 : a.2.scope = a.1 := by
    by_cases hc : (d.find? (fun e => e.1 == s.scope)).isSome
    · rw [if_pos hc] at ha
      exact h a ha
    · rw [if_neg hc] at ha
      rcases List.mem_append.mp ha with h1 | h1
      · exact h a h1
      · simp at h1
        subst h1
        rfl

  subst hae
  by_cases hk : (a.1 == s.scope) = true
  · simp only [if_pos hk]
    exact ha2
  · simp only [if_neg hk]
    exact ha2

/-- Keys present in the dictionary survive `scopeUpdStep`. -/
lemma mem_keys_scopeUpdStep (d : ScopeDict) (s : ScopeUpdate) (e : String × UserScopeRow)
    (he : e ∈ d) : ∃ e' ∈ scopeUpdStep d s, e'.1 = e.1 := by
  unfold scopeUpdStep
  have he' : e ∈ (if (d.find? (fun e => e.1 == s.scope)).isSome then d
      else d ++ [(s.scope, { scope := s.scope, is_active := s.is_active })]) := by
    by_cases hc : (d.find? (fun e => e.1 == s.scope)).isSome
    · rw [if_pos hc]; exact he
    · rw [if_neg hc]; exact List.mem_append_left _ he
  exact ⟨_, List.mem_map_of_mem _ he', scopeUpdStep_key_eq s e⟩

/-- The update fold preserves the dictionary invariant. -/
lemma dictInv_foldl_upd (ups : List ScopeUpdate) (d : ScopeDict) (h : DictInv d) :
    DictInv (ups.foldl scopeUpdStep d) := by
  induction ups generalizing d with
  | nil => exact h
  | cons a t ih => exact ih _ (dictInv_scopeUpdStep d a h)

/-- The update fold leaves lookups at keys named by no update unchanged. -/
lemma find?_foldl_upd_not_mem (ups : List ScopeUpdate) (d : ScopeDict) (k : String)
    (hk : ∀ s ∈ ups, s.scope ≠ k) :
    (ups.foldl scopeUpdStep d).find? (fun e => e.1 == k) = d.find? (fun e => e.1 == k) := by
  induction ups generalizing d with
  | nil => rfl
  | cons a t ih =>
    rw [List.foldl_cons, ih _ (fun s hs => hk s (List.mem_cons_of_mem a hs)),
      find?_scopeUpdStep_other d a k (Ne.symm (hk a (List.mem_cons_self a t)))]

/-- After the update fold, a scope named by an update (with pairwise
distinct names) is present with exactly the requested activation flag. -/
lemma find?_foldl_upd_mem (ups : List ScopeUpdate) (d : ScopeDict)
    (hinv : DictInv d) (hnd : (ups.map (fun s => s.scope)).Nodup)
    (s : ScopeUpdate) (hs : s ∈ ups) :
    (ups.foldl scopeUpdStep d).find? (fun e => e.1 == s.scope) =
      some (s.scope, { scope := s.scope, is_active := s.is_active }) := by
  induction ups generalizing d with
  | nil => cases hs
  | cons a t ih =>
    rw [List.map_cons, List.nodup_cons] at hnd
    obtain ⟨ha, ht⟩ := hnd
    rcases List.mem_cons.mp hs with rfl | hst
    · rw [List.foldl_cons,
        find?_foldl_upd_not_mem t _ s.scope
          (fun s' hs' h => ha (h ▸ List.mem_map_of_mem (fun g => g.scope) hs')),
        find?_scopeUpdStep_self d s hinv]
    · exact ih _ (dictInv_scopeUpdStep d a hinv) ht hst

/-- Keys present in the dictionary survive the whole update fold. -/
lemma mem_keys_foldl_upd (ups : List ScopeUpdate) (d : ScopeDict)
    (e : String × UserScopeRow) (he : e ∈ d) :
    ∃ e' ∈ ups.foldl scopeUpdStep d, e'.1 = e.1 := by
  induction ups generalizing d e with
  | nil => exact ⟨e, he, rfl⟩
  | cons a t ih =>
    obtain ⟨e1, he1, hk1⟩ := mem_keys_scopeUpdStep d a e he
    obtain ⟨e2, he2, hk2⟩ := ih _ e1 he1
    exact ⟨e2, he2, hk2.trans hk1⟩

/-- Entries of the removal fold all come from the input dictionary. -/
lemma mem_of_mem_foldl_rem (removes : List String) (d : ScopeDict)
    (e : String × UserScopeRow) (he : e ∈ removes.foldl scopeRemoveStep d) : e ∈ d := by
  induction removes generalizing d with
  | nil => exact he
  | cons j t ih =>
    have h1 : e ∈ scopeRemoveStep d j := ih _ he
    unfold scopeRemoveStep at h1
    by_cases hj : (j == "me") = true
    · rwa [if_pos hj] at h1
    · rw [if_neg hj] at h1
      exact (List.mem_filter.mp h1).1

/-- An entry whose key is "me", or whose key no removal names, survives the
removal fold. -/
lemma mem_foldl_rem_of_mem (removes : List String) (d : ScopeDict)
    (e : String × UserScopeRow) (he : e ∈ d) (hk : e.1 = "me" ∨ e.1 ∉ removes) :
    e ∈ removes.foldl scopeRemoveStep d := by
  induction removes generalizing d with
  | nil => exact he
  | cons j t ih =>
    have hstep : e ∈ scopeRemoveStep d j := by
      unfold scopeRemoveStep
      by_cases hj : (j == "me") = true
      · rw [if_pos hj]; exact he
      · rw [if_neg hj]
        refine List.mem_filter.mpr ⟨he, ?_⟩
        rcases hk with hme | hnt
        · simp only [hme, bne_iff_ne, ne_eq]
          intro h
          exact hj (by simp [← h])
        · simp only [bne_iff_ne, ne_eq]
          intro h
          exact hnt (h ▸ List.mem_cons_self j t)
    refine ih _ hstep ?_
    rcases hk with hme | hnt
    · exact Or.inl hme
    · exact Or.inr (fun hm => hnt (List.mem_cons_of_mem j hm))

/-- After the removal fold, no surviving entry carries a removed key other
than "me". -/
lemma key_ne_of_mem_foldl_rem (removes : List String) (d : ScopeDict) (k : String)
    (hk : k ∈ removes) (hme : k ≠ "me") (e : String × UserScopeRow)
    (he : e ∈ removes.foldl scopeRemoveStep d) : e.1 ≠ k := by
  induction removes generalizing d with
  | nil => cases hk
  | cons j t ih =>
    rcases List.mem_cons.mp hk with rfl | hkt
    · have h1 : e ∈ scopeRemoveStep d k := mem_of_mem_foldl_rem t _ e he
      unfold scopeRemoveStep at h1
      rw [if_neg (by simpa using hme)] at h1
      have := (List.mem_filter.mp h1).2
      simpa using this
    · exact ih _ hkt he

/-- The base dictionary built from the current grants satisfies the
invariant. -/
lemma dictInv_base (cur : List UserScopeRow) :
    DictInv (cur.map (fun s => (s.scope, s))) := by
  intro e he
  obtain ⟨a, _, hae⟩ := List.mem_map.mp he
  rw [← hae]

/-- Model of `compileScopes` keeps the "me" scope whenever it was present. -/
lemma compileScopes_keeps_me (cur : List UserScopeRow) (ups : List ScopeUpdate)
    (removes : List String) (h : "me" ∈ cur.map (fun g => g.scope)) :
    "me" ∈ (compileScopes cur ups removes).map (fun g => g.scope) := by
  obtain ⟨g0, hg0, hg0s⟩ := List.mem_map.mp h
  have hd0 : ((g0.scope, g0) : String × UserScopeRow) ∈ cur.map (fun s => (s.scope, s)) :=
    List.mem_map_of_mem _ hg0
  obtain ⟨e1, he1, hk1⟩ := mem_keys_foldl_upd ups _ _ hd0
  have he2 : e1 ∈ removes.foldl scopeRemoveStep (ups.foldl scopeUpdStep
      (cur.map (fun s => (s.scope, s)))) :=
    mem_foldl_rem_of_mem removes _ e1 he1 (Or.inl (by rw [hk1]; exact hg0s))
  have hinv : e1.2.scope = e1.1 :=
    dictInv_foldl_upd ups _ (dictInv_base cur) e1 he1
  refine List.mem_map.mpr ⟨e1.2, List.mem_map_of_mem _ he2, ?_⟩
  rw [hinv, hk1, hg0s]

/-- Model of `compileScopes` applies every requested scope add/update (names
pairwise distinct, not simultaneously removed). -/
lemma compileScopes_applies_update (cur : List UserScopeRow) (ups : List ScopeUpdate)
    (removes : List String) (hnd : (ups.map (fun s => s.scope)).Nodup)
    (s : ScopeUpdate) (hs : s ∈ ups) (hrm : s.scope ∉ removes) :
    ∃ g ∈ compileScopes cur ups removes, g.scope = s.scope ∧ g.is_active = s.is_active := by
  have hfind := find?_foldl_upd_mem ups (cur.map (fun s => (s.scope, s)))
    (dictInv_base cur) hnd s hs
  have hmem : ((s.scope, ({ scope := s.scope, is_active := s.is_active } : UserScopeRow)) :
      String × UserScopeRow) ∈ ups.foldl scopeUpdStep (cur.map (fun s => (s.scope, s))) :=
    List.mem_of_find?_eq_some hfind
  have hmem2 := mem_foldl_rem_of_mem removes _ _ hmem (Or.inr hrm)
  exact ⟨_, List.mem_map_of_mem _ hmem2, rfl, rfl⟩

/-- Model of `compileScopes` removes every removed scope other than "me". -/
lemma compileScopes_removes (cur : List UserScopeRow) (ups : List ScopeUpdate)
    (removes : List String) (k : String) (hk : k ∈ removes) (hme : k ≠ "me") :
    k ∉ (compileScopes cur ups removes).map (fun g => g.scope) := by
  intro hmem
  obtain ⟨g, hg, hgs⟩ := List.mem_map.mp hmem
  obtain ⟨e, he, hge⟩ := List.mem_map.mp hg
  have hinv : e.2.scope = e.1 :=
    dictInv_foldl_upd ups _ (dictInv_base cur) e (mem_of_mem_foldl_rem removes _ e he)
  have := key_ne_of_mem_foldl_rem removes _ k hk hme e he
  rw [← hinv, hge, hgs] at this
  exact this rfl

/-- A successful `update_user` run returns `updatedUser` and writes it into
the users table. -/
lemma update_user_eq (db : DB) (uid : Nat) (upd : UserUpdate) (u : UserRow)
    (hfind : db.users.find? (fun w => w.id == uid) = some u) :
    update_user db uid upd =
      .ok (updatedUser u upd,
        { db with users := db.users.map (fun w => if w.id == uid then updatedUser u upd else w) }) := by
  unfold update_user updatedUser
  rw [hfind]

/-- For a superadmin target the scope set is untouched. -/
lemma updatedUser_superadmin (u : UserRow) (upd : UserUpdate) (h : u.role = "superadmin") :
    (updatedUser u upd).allowed_scopes = u.allowed_scopes := by
  unfold updatedUser
  simp [h]

/-- For a non-superadmin target the scope set is recompiled. -/
lemma updatedUser_not_superadmin (u : UserRow) (upd : UserUpdate) (h : u.role ≠ "superadmin") :
    (updatedUser u upd).allowed_scopes =
      compileScopes u.allowed_scopes upd.scopes upd.remove_scopes := by
  unfold updatedUser
  simp [h]

/-- C7 amended: through the admin update path, for a target whose role is
not "superadmin", the scope set never loses "me" (even if `remove_scopes`
names it), every entry of the `scopes` list of the request — admin-tier scopes
included, since this path does not block them — ends up present with the
requested activation flag, and every other removal is applied; for a
"superadmin" target the scope set is left unchanged. -/
theorem update_user_scope_rules
    (db : DB) (uid : Nat) (upd : UserUpdate) (u : UserRow)
    (hfind : db.users.find? (fun w => w.id == uid) = some u)
    (hndup : (upd.scopes.map (fun s => s.scope)).Nodup)
    (hdisj : ∀ s ∈ upd.scopes, s.scope ∉ upd.remove_scopes) :
    ∃ u' db', update_user db uid upd = .ok (u', db') ∧
      (u.role = "superadmin" → u'.allowed_scopes = u.allowed_scopes) ∧
      (u.role ≠ "superadmin" →
        (("me" ∈ u.allowed_scopes.map (fun g => g.scope)) →
          "me" ∈ u'.allowed_scopes.map (fun g => g.scope)) ∧
        (∀ s ∈ upd.scopes,
          ∃ g ∈ u'.allowed_scopes, g.scope = s.scope ∧ g.is_active = s.is_active) ∧
        (∀ k ∈ upd.remove_scopes, k ≠ "me" →
          k ∉ u'.allowed_scopes.map (fun g => g.scope))) := by
  refine ⟨updatedUser u upd, _, update_user_eq db uid upd u hfind, ?_, ?_⟩
  · intro h
    rw [updatedUser_superadmin u upd h]
  · intro h
    rw [updatedUser_not_superadmin u upd h]
    refine ⟨compileScopes_keeps_me _ _ _, ?_, ?_⟩
    · intro s hs
      exact compileScopes_applies_update _ _ _ hndup s hs (hdisj s hs)
    · intro k hk hkme
      exact compileScopes_removes _ _ _ k hk hkme

/-- Witness for C7 amended: the theorem applied at a concrete
non-superadmin target. -/
theorem update_user_scope_rules_witness :
    ∃ u' db', update_user c7db2 5 c7upd2 = .ok (u', db') ∧
      (c7user2.role = "superadmin" → u'.allowed_scopes = c7user2.allowed_scopes) ∧
      (c7user2.role ≠ "superadmin" →
        (("me" ∈ c7user2.allowed_scopes.map (fun g => g.scope)) →
          "me" ∈ u'.allowed_scopes.map (fun g => g.scope)) ∧
        (∀ s ∈ c7upd2.scopes,
          ∃ g ∈ u'.allowed_scopes, g.scope = s.scope ∧ g.is_active = s.is_active) ∧
        (∀ k ∈ c7upd2.remove_scopes, k ≠ "me" →
          k ∉ u'.allowed_scopes.map (fun g => g.scope))) :=
  update_user_scope_rules c7db2 5 c7upd2 c7user2 (by decide) (by decide) (by decide)

end SimpleFastapi
